import Mathlib

/-!
Verification of the monitoring core of the CI/CD framework
(source: cicd_framework_scripts/monitoring/monitor.py).

The Python source is shallowly embedded: quantity parsing, the health
rule engine, the aggregator, the alert dispatcher and the scheduler loop
become Lean functions over explicit snapshot data.  Python floats are
modelled as exact rationals over plain decimal literals (the only shape
of Kubernetes quantity strings); fallible code (ValueError from float()
or int()) is modelled with Option; Kubernetes ApiException outcomes are
modelled with Except on each collector result.
-/

namespace CICDMonitor

/-- Numeric value of a list of decimal digit characters (most significant
first), as produced by Python int()/float() on a digit string. -/
def digitsToNat (ds : List Char) : Nat :=
  ds.foldl (fun a c => a * 10 + (c.toNat - 48)) 0

/-- Model of Python float() on an unsigned plain decimal literal:
digits with an optional single dot, at least one digit overall
(covers the accepted shapes of Kubernetes quantity strings; exponent,
inf and nan forms are out of scope).  Returns none on a malformed
literal, modelling ValueError. -/
def parseUnsignedDecimal (cs : List Char) : Option ℚ :=
  let ip := cs.takeWhile (fun c => c ≠ '.')
  let rest := cs.dropWhile (fun c => c ≠ '.')
  match rest with
  | [] =>
    if ip ≠ [] ∧ ip.all Char.isDigit then some ((digitsToNat ip : ℚ)) else none
  | _ :: fp =>
    if (ip ≠ [] ∨ fp ≠ []) ∧ ip.all Char.isDigit ∧ fp.all Char.isDigit then
      some ((digitsToNat ip : ℚ) + (digitsToNat fp : ℚ) / ((10 : ℚ) ^ fp.length))
    else none

/-- Model of Python float() on a plain decimal literal with optional sign. -/
def parseFloatChars (cs : List Char) : Option ℚ :=
  match cs with
  | [] => none
  | c :: rest =>
    if c = '-' then (parseUnsignedDecimal rest).map (fun q => -q)
    else if c = '+' then parseUnsignedDecimal rest
    else parseUnsignedDecimal (c :: rest)

/-- Model of Python int() on a string: optional sign followed by a
nonempty run of digits; none models ValueError. -/
def parseIntChars (cs : List Char) : Option Int :=
  match cs with
  | [] => none
  | c :: rest =>
    if c = '-' then
      if rest ≠ [] ∧ rest.all Char.isDigit then some (-((digitsToNat rest : Int))) else none
    else if c = '+' then
      if rest ≠ [] ∧ rest.all Char.isDigit then some ((digitsToNat rest : Int)) else none
    else
      if (c :: rest).all Char.isDigit then some ((digitsToNat (c :: rest) : Int)) else none

/-- Truncation of a rational toward zero, the behaviour of Python int()
applied to a float. -/
def ratTruncToInt (q : ℚ) : Int :=
  if 0 ≤ q then ((q.num.toNat / q.den : Nat) : Int)
  else -(((((-q).num.toNat) / (-q).den : Nat) : Int))

/-- CPU parser on the character list of the input, inspected from the
tail of the string exactly as the source tests cpu_str.endswith("m").
Source: CICDMonitor._parse_cpu. -/
def parseCpuChars (cs : List Char) : Option ℚ :=
  if cs = [] then some 0
  else
    match cs.reverse with
    | 'm' :: restRev => (parseFloatChars restRev.reverse).map (fun q => q / 1000)
    | _ => parseFloatChars cs

/-- Source: CICDMonitor._parse_cpu — parse CPU string to cores; empty
input yields 0.0, a trailing m divides by 1000, otherwise the whole
string is a float.  none models the ValueError raised on a malformed
numeric prefix. -/
def _parse_cpu (s : String) : Option ℚ := parseCpuChars s.data

/-- Memory suffix dispatch on the reversed character list: the branches
mirror, in order, the endswith tests for Ki, Mi, Gi, Ti of the units
table of the source; the fallback is int(memory_str). -/
def parseMemRev (rcs : List Char) : Option Int :=
  match rcs with
  | 'i' :: 'K' :: r => (parseFloatChars r.reverse).map (fun q => ratTruncToInt (q * 1024))
  | 'i' :: 'M' :: r => (parseFloatChars r.reverse).map (fun q => ratTruncToInt (q * 1024 ^ 2))
  | 'i' :: 'G' :: r => (parseFloatChars r.reverse).map (fun q => ratTruncToInt (q * 1024 ^ 3))
  | 'i' :: 'T' :: r => (parseFloatChars r.reverse).map (fun q => ratTruncToInt (q * 1024 ^ 4))
  | other => parseIntChars other.reverse

/-- Memory parser on a character list; empty input yields 0 before the
suffix dispatch, as in the source. -/
def parseMemChars (cs : List Char) : Option Int :=
  if cs = [] then some 0 else parseMemRev cs.reverse

/-- Source: CICDMonitor._parse_memory — parse memory string to bytes;
binary suffixes Ki, Mi, Gi, Ti multiply the float numeric value and the
product is truncated to int; no suffix falls back to int(memory_str).
none models the ValueError raised on a malformed numeric prefix. -/
def _parse_memory (s : String) : Option Int := parseMemChars s.data

/-- An issue dictionary as appended by the health checks: keys type,
severity, resource, message, timestamp. -/
structure Issue where
  type : String
  severity : String
  resource : String
  message : String
  timestamp : String
deriving DecidableEq

/-- One deployment of the listing: spec.replicas and the status replica
counts may be absent (None in the API object); ageDays is the value of
(now - creation_timestamp).days used by the age check. -/
structure DeploymentInfo where
  name : String
  replicas : Option Nat
  ready_replicas : Option Nat
  available_replicas : Option Nat
  ageDays : Int
deriving DecidableEq

structure ContainerStatusInfo where
  name : String
  restart_count : Nat
deriving DecidableEq

/-- One pod of the listing; ageSeconds is age.total_seconds() for the
pending check. -/
structure PodInfo where
  name : String
  phase : String
  ageSeconds : ℚ
  container_statuses : List ContainerStatusInfo
deriving DecidableEq

/-- One resource quota: the hard and used mappings of quota.status as
association lists in insertion order (a falsy None or empty mapping is
the empty list). -/
structure QuotaInfo where
  name : String
  hard : List (String × String)
  used : List (String × String)
deriving DecidableEq

/-- One configured external service probe together with its observed
outcome: an HTTP status code, or the message of a RequestException. -/
structure ExternalServiceInfo where
  name : String
  expected_status : Nat
  outcome : Except String Nat

/-- Python dict.get with a default, on an association list. -/
def lookupD (l : List (String × String)) (k dflt : String) : String :=
  match l.find? (fun p => p.1 = k) with
  | some p => p.2
  | none => dflt

/-- Sequential traversal of a list with a fallible body, the shape of
the Python for-loops here: the first raised exception (none) escapes
and discards the whole result. -/
def traverseOption {α β : Type} (f : α → Option β) : List α → Option (List β)
  | [] => some []
  | a :: l => do
    let b ← f a
    let bs ← traverseOption f l
    pure (b :: bs)

/-- The api_error issue appended when a namespaced listing raises
ApiException (check_deployment_health and check_pod_health). -/
def apiErrorIssue (ns e ts : String) : Issue :=
  { type := "api_error"
    severity := "critical"
    resource := "namespace/" ++ ns
    message := "Failed to access Kubernetes API: " ++ e
    timestamp := ts }

/-- Issues contributed by one deployment: the replica-deficit check
(ready < spec, critical when ready is 0) and the age check.  Absent
counts are defaulted to 0 by the source (x or 0). -/
def deploymentIssues (ns : String) (maxAgeDays : Int) (ts : String)
    (d : DeploymentInfo) : List Issue :=
  let spec_replicas := d.replicas.getD 0
  let ready_replicas := d.ready_replicas.getD 0
  (if ready_replicas < spec_replicas then
    [{ type := "deployment_unhealthy"
       severity := if ready_replicas = 0 then "critical" else "warning"
       resource := ns ++ "/" ++ d.name
       message := "Deployment " ++ d.name ++ " has " ++ toString ready_replicas
         ++ "/" ++ toString spec_replicas ++ " ready replicas"
       timestamp := ts }]
   else [])
  ++
  (if d.ageDays > maxAgeDays then
    [{ type := "deployment_old"
       severity := "info"
       resource := ns ++ "/" ++ d.name
       message := "Deployment " ++ d.name ++ " is " ++ toString d.ageDays ++ " days old"
       timestamp := ts }]
   else [])

/-- Source: CICDMonitor.check_deployment_health.  The listing either
fails with ApiException (converted to one critical api_error issue) or
yields deployments whose issues are concatenated in order. -/
def check_deployment_health (ns : String)
    (collected : Except String (List DeploymentInfo))
    (maxAgeDays : Int) (ts : String) : List Issue :=
  match collected with
  | Except.error e => [apiErrorIssue ns e ts]
  | Except.ok deployments => deployments.flatMap (deploymentIssues ns maxAgeDays ts)

/-- Issues contributed by one pod: failed phase, pending longer than 300
seconds, and per-container restart counts above the threshold.  The
pending-age rendering of the source (a timedelta string) is abstracted
to the number of seconds. -/
def podIssues (ns : String) (maxRestarts : Nat) (ts : String) (p : PodInfo) : List Issue :=
  (if p.phase = "Failed" then
    [{ type := "pod_failed", severity := "critical", resource := ns ++ "/" ++ p.name
       message := "Pod " ++ p.name ++ " is in Failed state", timestamp := ts }]
   else if p.phase = "Pending" ∧ p.ageSeconds > 300 then
    [{ type := "pod_pending", severity := "warning", resource := ns ++ "/" ++ p.name
       message := "Pod " ++ p.name ++ " has been pending", timestamp := ts }]
   else [])
  ++
  p.container_statuses.flatMap (fun c =>
    if c.restart_count > maxRestarts then
      [{ type := "high_restart_count", severity := "warning"
         resource := ns ++ "/" ++ p.name ++ "/" ++ c.name
         message := "Container " ++ c.name ++ " has restarted "
           ++ toString c.restart_count ++ " times"
         timestamp := ts }]
    else [])

/-- Source: CICDMonitor.check_pod_health, with the same ApiException
conversion as the deployment check. -/
def check_pod_health (ns : String) (collected : Except String (List PodInfo))
    (maxRestarts : Nat) (ts : String) : List Issue :=
  match collected with
  | Except.error e => [apiErrorIssue ns e ts]
  | Except.ok pods => pods.flatMap (podIssues ns maxRestarts ts)

/-- Resource-dimension dispatch of check_resource_usage, testing the
tail of the resource name exactly as resource.endswith(".cpu") and
resource.endswith(".memory") do, then parsing hard and used with the
matching parser; the remaining resources go through int().  none models
a ValueError escaping the conversion. -/
def quotaResourceValues (resource hard_limit used : String) : Option (ℚ × ℚ) :=
  match resource.data.reverse with
  | 'u' :: 'p' :: 'c' :: '.' :: _ => do
    let h ← _parse_cpu hard_limit
    let u ← _parse_cpu used
    pure (h, u)
  | 'y' :: 'r' :: 'o' :: 'm' :: 'e' :: 'm' :: '.' :: _ => do
    let h ← _parse_memory hard_limit
    let u ← _parse_memory used
    pure (((h : ℚ)), ((u : ℚ)))
  | _ => do
    let h ← parseIntChars hard_limit.data
    let u ← parseIntChars used.data
    pure (((h : ℚ)), ((u : ℚ)))

/-- Usage percentage of one quota resource: used / hard × 100, with a
zero (or negative) hard limit short-circuited to 0. -/
def usagePercent (hard_val used_val : ℚ) : ℚ :=
  if hard_val > 0 then used_val / hard_val * 100 else 0

/-- The issue list the quota loop appends for one (quota, resource)
pair once the numeric values are known: one issue above 90%, critical
above 95%; the percent text of the source message is abstracted. -/
def quotaBandIssues (ns qname resource used hard_limit ts : String)
    (hard_val used_val : ℚ) : List Issue :=
  if usagePercent hard_val used_val > 90 then
    [{ type := "resource_quota_high"
       severity := if usagePercent hard_val used_val > 95 then "critical" else "warning"
       resource := ns ++ "/" ++ qname ++ "/" ++ resource
       message := "Resource quota " ++ resource ++ " is used (" ++ used ++ "/" ++ hard_limit ++ ")"
       timestamp := ts }]
  else []

/-- One (resource, hard_limit) item of a quota, with used defaulted to
"0" by dict.get; a parse failure aborts the whole check (ValueError is
not an ApiException). -/
def quotaResourceIssues (ns qname ts resource hard_limit used : String) :
    Option (List Issue) := do
  let (hard_val, used_val) ← quotaResourceValues resource hard_limit used
  pure (quotaBandIssues ns qname resource used hard_limit ts hard_val used_val)

/-- Issues of one quota object: only quotas whose hard and used
mappings are both truthy (nonempty) are examined, and the hard items
are traversed in order. -/
def quotaIssues (ns ts : String) (q : QuotaInfo) : Option (List Issue) :=
  if q.hard ≠ [] ∧ q.used ≠ [] then do
    let ls ← traverseOption (fun rh =>
      quotaResourceIssues ns q.name ts rh.1 rh.2 (lookupD q.used rh.1 "0")) q.hard
    pure ls.flatten
  else pure []

/-- Source: CICDMonitor.check_resource_usage.  An ApiException of the
quota listing is caught and only logged — the function returns its
issues collected so far, which are none; a ValueError from the numeric
conversions is not caught and escapes (modelled by none). -/
def check_resource_usage (ns : String)
    (collected : Except String (List QuotaInfo)) (ts : String) :
    Option (List Issue) :=
  match collected with
  | Except.error _ => some []
  | Except.ok quotas => do
    let ls ← traverseOption (quotaIssues ns ts) quotas
    pure ls.flatten

/-- Issues of one external service probe (check_external_services loop
body): wrong status code, or a RequestException making the service
unreachable. -/
def externalServiceIssues (ts : String) (s : ExternalServiceInfo) : List Issue :=
  match s.outcome with
  | Except.ok code =>
    if code ≠ s.expected_status then
      [{ type := "external_service_unhealthy", severity := "critical"
         resource := s.name
         message := "Service " ++ s.name ++ " returned status " ++ toString code
           ++ ", expected " ++ toString s.expected_status
         timestamp := ts }]
    else []
  | Except.error e =>
    [{ type := "external_service_unreachable", severity := "critical"
       resource := s.name
       message := "Service " ++ s.name ++ " is unreachable: " ++ e
       timestamp := ts }]

/-- Source: CICDMonitor.check_external_services. -/
def check_external_services (services : List ExternalServiceInfo) (ts : String) :
    List Issue :=
  services.flatMap (externalServiceIssues ts)

/-- Source: CICDMonitor.check_certificate_expiry — a stub that never
appends an issue. -/
def check_certificate_expiry (_ns : String) : List Issue := []

/-- The collector results for one namespace of a cycle. -/
structure NamespaceData where
  ns : String
  deployments : Except String (List DeploymentInfo)
  pods : Except String (List PodInfo)
  quotas : Except String (List QuotaInfo)

/-- The health report dictionary of run_health_checks: timestamp,
total_issues, issues_by_severity (three buckets) and all_issues. -/
structure HealthReport where
  timestamp : String
  total_issues : Nat
  critical : List Issue
  warning : List Issue
  info : List Issue
  all_issues : List Issue
deriving DecidableEq

/-- The report run_health_checks assembles from the concatenated issue
list: severity buckets are order-preserving filters of all_issues. -/
def mkHealthReport (ts : String) (all_issues : List Issue) : HealthReport :=
  { timestamp := ts
    total_issues := all_issues.length
    critical := all_issues.filter (fun i => i.severity = "critical")
    warning := all_issues.filter (fun i => i.severity = "warning")
    info := all_issues.filter (fun i => i.severity = "info")
    all_issues := all_issues }

/-- The issues of one iteration of the namespace loop of
run_health_checks, in the order the four checks extend the list. -/
def namespaceIssues (maxAgeDays : Int) (maxRestarts : Nat) (ts : String)
    (nd : NamespaceData) : Option (List Issue) := do
  let quo ← check_resource_usage nd.ns nd.quotas ts
  pure (check_deployment_health nd.ns nd.deployments maxAgeDays ts
    ++ check_pod_health nd.ns nd.pods maxRestarts ts
    ++ quo
    ++ check_certificate_expiry nd.ns)

/-- Source: CICDMonitor.run_health_checks.  Namespaces are traversed in
caller order, external services afterwards; an uncaught exception of
any check (none) escapes the whole run. -/
def run_health_checks (namespaces : List NamespaceData)
    (external_services : List ExternalServiceInfo)
    (maxAgeDays : Int) (maxRestarts : Nat) (ts : String) : Option HealthReport := do
  let ls ← traverseOption (namespaceIssues maxAgeDays maxRestarts ts) namespaces
  pure (mkHealthReport ts (ls.flatten ++ check_external_services external_services ts))

/-- ASCII lowercasing of one character, the effect of str.lower() on
the severity labels CRITICAL and WARNING. -/
def charToLower (c : Char) : Char :=
  if 'A' ≤ c ∧ c ≤ 'Z' then Char.ofNat (c.toNat + 32) else c

/-- str.lower() restricted to ASCII, enough for the severity labels. -/
def strToLower (s : String) : String := String.mk (s.data.map charToLower)

/-- The first two lines of _format_alert_message (the header litera
of the source file is reproduced byte for byte). -/
def alertHeader (issues : List Issue) (severity : String) : String :=
  "ðŸš¨ " ++ severity ++ " CI/CD Infrastructure Alert\n\n"
    ++ "Found " ++ toString issues.length ++ " " ++ strToLower severity ++ " issues:\n\n"

/-- The three lines the loop body of _format_alert_message appends for
one issue: type and message, resource, timestamp. -/
def renderIssueEntry (i : Issue) : String :=
  "â€¢ " ++ i.type ++ ": " ++ i.message ++ "\n"
    ++ "  Resource: " ++ i.resource ++ "\n"
    ++ "  Time: " ++ i.timestamp ++ "\n\n"

/-- The rendered entries: the loop runs over issues[:10]. -/
def alertEntries (issues : List Issue) : List String :=
  (issues.take 10).map renderIssueEntry

/-- The overflow line appended when more than 10 issues were given. -/
def alertTrailer (issues : List Issue) : String :=
  if issues.length > 10 then
    "... and " ++ toString (issues.length - 10) ++ " more issues\n"
  else ""

/-- Source: CICDMonitor._format_alert_message. -/
def _format_alert_message (issues : List Issue) (severity : String) : String :=
  alertHeader issues severity ++ String.join (alertEntries issues) ++ alertTrailer issues

/-- The alert-gating keys send_alerts and the AlertManager read from
the alerts mapping of the configuration.  The mapping is free-form
YAML, so it may also carry warning gates for email and webhook — keys
the source never consults; they are included to state claims about
them. -/
structure AlertsConfig where
  smtp_enabled : Bool
  slack_enabled : Bool
  webhook_enabled : Bool
  email_critical : Bool
  email_recipients : List String
  slack_critical : Bool
  slack_warning : Bool
  webhook_critical : Bool
  send_warnings : Bool
  email_warning : Bool
  webhook_warning : Bool
deriving DecidableEq

/-- One attempted channel send: a call send_alerts makes into the
AlertManager (the enabled check happens inside the send method). -/
inductive SendAttempt
  | email (subject message : String) (recipients : List String)
  | slack (message : String)
  | webhook (severity : String) (issues : List Issue) (timestamp : String)
deriving DecidableEq

/-- Source: CICDMonitor.send_alerts.  For a nonempty critical bucket
the email, slack and webhook critical gates are consulted in that
order; for a nonempty warning bucket, guarded by send_warnings
(defaulting to true), only the slack warning gate is consulted. -/
def send_alerts (cfg : AlertsConfig) (report : HealthReport) : List SendAttempt :=
  let critical_issues := report.critical
  let warning_issues := report.warning
  (if critical_issues ≠ [] then
    (if cfg.email_critical then
      [SendAttempt.email "CRITICAL: CI/CD Infrastructure Issues"
        (_format_alert_message critical_issues "CRITICAL") cfg.email_recipients]
     else [])
    ++ (if cfg.slack_critical then
      [SendAttempt.slack (_format_alert_message critical_issues "CRITICAL")]
     else [])
    ++ (if cfg.webhook_critical then
      [SendAttempt.webhook "critical" critical_issues report.timestamp]
     else [])
   else [])
  ++
  (if warning_issues ≠ [] ∧ cfg.send_warnings then
    (if cfg.slack_warning then
      [SendAttempt.slack (_format_alert_message warning_issues "WARNING")]
     else [])
   else [])

/-- Source: main, --once path.  The report is produced, written or
printed, alerts dispatched, and the function returns 0; an exception
escaping the run (a ValueError from run_health_checks) reaches the
outer handler, which returns 1. -/
def mainOnce (namespaces : List NamespaceData)
    (external_services : List ExternalServiceInfo)
    (maxAgeDays : Int) (maxRestarts : Nat) (ts : String) : Nat :=
  match run_health_checks namespaces external_services maxAgeDays maxRestarts ts with
  | some _ => 0
  | none => 1

/-- Events of the continuous loop of main: a cycle is invoked, its body
either completes or raises (the exception is logged), the loop sleeps,
and the only exit is the KeyboardInterrupt. -/
inductive LoopEvent
  | cycleStart
  | cycleCompleted (total_issues : Nat)
  | exceptionLogged (msg : String)
  | sleep (seconds : Nat)
  | interrupted
deriving DecidableEq

def isCycleStart : LoopEvent → Bool
  | LoopEvent.cycleStart => true
  | _ => false

def isSleepEvent : LoopEvent → Bool
  | LoopEvent.sleep _ => true
  | _ => false

def isInterruptedEvent : LoopEvent → Bool
  | LoopEvent.interrupted => true
  | _ => false

/-- Source: main, continuous path — the while True loop whose whole
body (evaluation, dispatch, report write) sits in a try block with a
catch-all except that logs, followed by time.sleep(interval).  The list
of outcomes gives, per cycle, the result of the body until the
KeyboardInterrupt arrives. -/
def mainLoop (interval : Nat) : List (Except String HealthReport) → List LoopEvent
  | [] => [LoopEvent.interrupted]
  | Except.ok r :: rest =>
    LoopEvent.cycleStart :: LoopEvent.cycleCompleted r.total_issues
      :: LoopEvent.sleep interval :: mainLoop interval rest
  | Except.error e :: rest =>
    LoopEvent.cycleStart :: LoopEvent.exceptionLogged e
      :: LoopEvent.sleep interval :: mainLoop interval rest

/-- The outcome of one cycle body as the loop observes it: a report, or
the raised exception. -/
def cycleResult (namespaces : List NamespaceData)
    (external_services : List ExternalServiceInfo)
    (maxAgeDays : Int) (maxRestarts : Nat) (ts : String) :
    Except String HealthReport :=
  match run_health_checks namespaces external_services maxAgeDays maxRestarts ts with
  | some r => Except.ok r
  | none => Except.error "ValueError"

/-- The threshold object of the specification data model, with the two
quota percentage fields the spec declares configurable. -/
structure ThresholdConfig where
  max_deployment_age_days : Int
  max_container_restarts : Nat
  pod_pending_grace_seconds : ℚ
  quota_warning_pct : ℚ
  quota_critical_pct : ℚ

/-- Modelled from the spec: the quota-band behaviour claim C3 states,
with the warning and critical percentages drawn from a ThresholdConfig
as the spec data model prescribes, predicated of the quota evaluation
of the source. -/
def specQuotaBandProperty (cfg : ThresholdConfig)
    (ns qname ts resource hl us : String) (h u : ℚ) : Prop :=
  quotaResourceValues resource hl us = some (h, u) →
    ((h = 0 → quotaResourceIssues ns qname ts resource hl us = some [])
    ∧ (0 < h → cfg.quota_critical_pct < u / h * 100 →
        ∃ i : Issue, quotaResourceIssues ns qname ts resource hl us = some [i]
          ∧ i.severity = "critical")
    ∧ (0 < h → cfg.quota_warning_pct < u / h * 100 →
        u / h * 100 ≤ cfg.quota_critical_pct →
        ∃ i : Issue, quotaResourceIssues ns qname ts resource hl us = some [i]
          ∧ i.severity = "warning")
    ∧ (0 < h → u / h * 100 ≤ cfg.quota_warning_pct →
        quotaResourceIssues ns qname ts resource hl us = some []))

/-- C7: a replica-deficit issue is produced for a deployment if and
only if ready_replicas < desired_replicas, its severity is critical
exactly when ready_replicas is 0 and warning otherwise, and a
deployment with ready_replicas at or above desired_replicas produces no
replica-deficit issue. -/
theorem deployment_replica_deficit (ns : String) (maxAgeDays : Int) (ts : String)
    (d : DeploymentInfo) :
    (d.ready_replicas.getD 0 < d.replicas.getD 0 →
      (deploymentIssues ns maxAgeDays ts d).filter (fun i => i.type = "deployment_unhealthy")
        = [{ type := "deployment_unhealthy"
             severity := if d.ready_replicas.getD 0 = 0 then "critical" else "warning"
             resource := ns ++ "/" ++ d.name
             message := "Deployment " ++ d.name ++ " has " ++ toString (d.ready_replicas.getD 0)
               ++ "/" ++ toString (d.replicas.getD 0) ++ " ready replicas"
             timestamp := ts }])
  ∧ (d.replicas.getD 0 ≤ d.ready_replicas.getD 0 →
      (deploymentIssues ns maxAgeDays ts d).filter (fun i => i.type = "deployment_unhealthy")
        = []) := by
  constructor
  · intro hlt
    simp only [deploymentIssues, List.filter_append]
    rw [if_pos hlt]
    split <;> simp
  · intro hge
    simp only [deploymentIssues, List.filter_append]
    rw [if_neg (by omega : ¬ d.ready_replicas.getD 0 < d.replicas.getD 0)]
    split <;> simp

/-- C7 witness: a 2-of-3 deployment yields exactly the warning deficit
issue. -/
theorem deployment_replica_deficit_witness :
    (deploymentIssues "ns" 90 "T" ⟨"app", some 3, some 2, some 2, 0⟩).filter
        (fun i => i.type = "deployment_unhealthy")
      = [{ type := "deployment_unhealthy"
           severity := if (some 2 : Option Nat).getD 0 = 0 then "critical" else "warning"
           resource := "ns" ++ "/" ++ "app"
           message := "Deployment " ++ "app" ++ " has " ++ toString ((some 2 : Option Nat).getD 0)
             ++ "/" ++ toString ((some 3 : Option Nat).getD 0) ++ " ready replicas"
           timestamp := "T" }] :=
  (deployment_replica_deficit "ns" 90 "T" ⟨"app", some 3, some 2, some 2, 0⟩).1 (by decide)

/-- C10: absent replica counts are defaulted to 0, so the check is
total; a deployment with an unset desired count produces no deficit
issue, and desired > 0 with an unset ready count yields a critical
deficit issue. -/
theorem deployment_absent_counts (ns : String) (maxAgeDays : Int) (ts : String)
    (d : DeploymentInfo) :
    (d.replicas = none →
      (deploymentIssues ns maxAgeDays ts d).filter (fun i => i.type = "deployment_unhealthy")
        = [])
  ∧ (∀ n : Nat, d.replicas = some n → 0 < n → d.ready_replicas = none →
      (deploymentIssues ns maxAgeDays ts d).filter (fun i => i.type = "deployment_unhealthy")
        = [{ type := "deployment_unhealthy"
             severity := "critical"
             resource := ns ++ "/" ++ d.name
             message := "Deployment " ++ d.name ++ " has " ++ toString (0 : Nat)
               ++ "/" ++ toString n ++ " ready replicas"
             timestamp := ts }]) := by
  constructor
  · intro hnone
    have h := (deployment_replica_deficit ns maxAgeDays ts d).2
    rw [hnone] at h
    exact h (by simp)
  · intro n hn hpos hready
    have h := (deployment_replica_deficit ns maxAgeDays ts d).1
    rw [hn, hready] at h
    simpa using h (by simpa using hpos)

/-- C10 witness: desired 3 with absent ready count yields the critical
deficit issue. -/
theorem deployment_absent_counts_witness :
    (deploymentIssues "ns" 90 "T" ⟨"app", some 3, none, none, 0⟩).filter
        (fun i => i.type = "deployment_unhealthy")
      = [{ type := "deployment_unhealthy"
           severity := "critical"
           resource := "ns" ++ "/" ++ "app"
           message := "Deployment " ++ "app" ++ " has " ++ toString (0 : Nat)
             ++ "/" ++ toString (3 : Nat) ++ " ready replicas"
           timestamp := "T" }] :=
  (deployment_absent_counts "ns" 90 "T" ⟨"app", some 3, none, none, 0⟩).2 3 rfl
    (by decide) rfl

/-- C4 (code contradicts the spec): a malformed numeric value inside a
quota makes the parser raise (none), the exception is not an
ApiException and so is not caught by check_resource_usage, and
run_health_checks crashes instead of returning a report. -/
theorem malformed_quantity_aborts_run :
    _parse_memory "abcMi" = none
  ∧ check_resource_usage "ns"
      (Except.ok [⟨"q", [("requests.memory", "abcMi")], [("requests.memory", "1Mi")]⟩]) "T"
      = none
  ∧ run_health_checks
      [⟨"ns", Except.ok [], Except.ok [],
        Except.ok [⟨"q", [("requests.memory", "abcMi")], [("requests.memory", "1Mi")]⟩]⟩]
      [] 90 5 "T" = none := by decide

/-- C6 counterexample: a run whose report contains a critical issue
still exits with status 0 in single-shot mode. -/
theorem once_exit_zero_despite_critical :
    ((run_health_checks
        [⟨"ns", Except.ok [⟨"app", some 3, some 0, some 0, 0⟩], Except.ok [], Except.ok []⟩]
        [] 90 5 "T").map (fun r => r.critical.length) = some 1)
  ∧ mainOnce
      [⟨"ns", Except.ok [⟨"app", some 3, some 0, some 0, 0⟩], Except.ok [], Except.ok []⟩]
      [] 90 5 "T" = 0 := by decide

/-- C6 amended: in single-shot mode the exit status is 0 whenever the
run completes without an exception — whatever issues were found — and 1
exactly when an exception escapes the run. -/
theorem once_exit_status (namespaces : List NamespaceData)
    (ext : List ExternalServiceInfo) (maxAgeDays : Int) (maxRestarts : Nat) (ts : String) :
    (∀ r : HealthReport,
      run_health_checks namespaces ext maxAgeDays maxRestarts ts = some r →
      mainOnce namespaces ext maxAgeDays maxRestarts ts = 0)
  ∧ (run_health_checks namespaces ext maxAgeDays maxRestarts ts = none →
      mainOnce namespaces ext maxAgeDays maxRestarts ts = 1) := by
  unfold mainOnce
  constructor
  · intro r hr
    rw [hr]
  · intro hr
    rw [hr]

/-- C6 amended witness: the empty run succeeds and exits 0. -/
theorem once_exit_status_witness : mainOnce [] [] 90 5 "T" = 0 :=
  (once_exit_status [] [] 90 5 "T").1 (mkHealthReport "T" []) (by decide)

/-- C2 counterexample: an API failure of the resource-quota collector
for namespace payments is absorbed without any api_error issue — the
report is produced but contains zero api_error issues, not exactly
one. -/
theorem quota_api_error_not_reported :
    (run_health_checks [⟨"payments", Except.ok [], Except.ok [], Except.error "boom"⟩]
        [] 90 5 "T").map
      (fun r => (r.all_issues.filter (fun i => i.type = "api_error")).length)
    = some 0 := by decide

/-- C2 amended: a deployment-collector or pod-collector API failure is
converted into exactly one critical api_error issue scoped to the
namespace and is not propagated; a quota-collector API failure is
caught and logged but contributes no issue; in all cases the other
checks and namespaces still contribute their issues to the returned
report. -/
theorem collector_failure_conversion (ns e : String) (maxAgeDays : Int)
    (maxRestarts : Nat) (ts : String) :
    check_deployment_health ns (Except.error e) maxAgeDays ts = [apiErrorIssue ns e ts]
  ∧ check_pod_health ns (Except.error e) maxRestarts ts = [apiErrorIssue ns e ts]
  ∧ (apiErrorIssue ns e ts).severity = "critical"
  ∧ (apiErrorIssue ns e ts).type = "api_error"
  ∧ check_resource_usage ns (Except.error e) ts = some []
  ∧ (∀ (nd : NamespaceData) (is2 : List Issue) (ext : List ExternalServiceInfo),
      namespaceIssues maxAgeDays maxRestarts ts nd = some is2 →
      run_health_checks
        [⟨ns, Except.error e, Except.error e, Except.error e⟩, nd]
        ext maxAgeDays maxRestarts ts
      = some (mkHealthReport ts
          ([apiErrorIssue ns e ts, apiErrorIssue ns e ts] ++ is2
            ++ check_external_services ext ts))) := by
  refine ⟨rfl, rfl, rfl, rfl, rfl, ?_⟩
  intro nd is2 ext hnd
  have hfail : namespaceIssues maxAgeDays maxRestarts ts
      ⟨ns, Except.error e, Except.error e, Except.error e⟩
      = some [apiErrorIssue ns e ts, apiErrorIssue ns e ts] := by
    simp [namespaceIssues, check_resource_usage, check_deployment_health,
      check_pod_health, check_certificate_expiry]
  simp [run_health_checks, traverseOption, hfail, hnd]

/-- C2 amended witness: payments fails on all three collectors while
billing succeeds with one degraded deployment; the report holds the two
payments api_error issues followed by the billing warning. -/
theorem collector_failure_conversion_witness :
    run_health_checks
      [⟨"payments", Except.error "boom", Except.error "boom", Except.error "boom"⟩,
       ⟨"billing", Except.ok [⟨"web", some 3, some 2, some 2, 0⟩], Except.ok [], Except.ok []⟩]
      [] 90 5 "T"
    = some (mkHealthReport "T"
        ([apiErrorIssue "payments" "boom" "T", apiErrorIssue "payments" "boom" "T"]
          ++ [{ type := "deployment_unhealthy"
                severity := "warning"
                resource := "billing/web"
                message := "Deployment web has 2/3 ready replicas"
                timestamp := "T" }]
          ++ check_external_services [] "T")) :=
  (collector_failure_conversion "payments" "boom" 90 5 "T").2.2.2.2.2
    ⟨"billing", Except.ok [⟨"web", some 3, some 2, some 2, 0⟩], Except.ok [], Except.ok []⟩
    _ [] (by decide)

/-- C5 counterexample: one warning issue, the global send_warnings
switch on, the email channel enabled with its warning gate set — yet
send_alerts attempts no channel at all: the email warning gate is never
consulted. -/
theorem warning_email_gate_never_consulted :
    send_alerts
      { smtp_enabled := true, slack_enabled := true, webhook_enabled := true
        email_critical := false, email_recipients := ["ops"]
        slack_critical := false, slack_warning := false, webhook_critical := false
        send_warnings := true, email_warning := true, webhook_warning := true }
      (mkHealthReport "T" [⟨"pod_pending", "warning", "ns/p", "m", "T"⟩]) = [] := by decide

/-- C5 amended: for a report with a nonempty warning bucket and no
critical issues, only the slack channel can be attempted: the dispatch
is exactly one slack send when send_warnings and the slack warning gate
hold, and nothing otherwise — the email and webhook warning gates are
never consulted. -/
theorem warnings_dispatch_only_slack (cfg : AlertsConfig) (report : HealthReport)
    (hc : report.critical = []) (hw : report.warning ≠ []) :
    send_alerts cfg report
      = if cfg.send_warnings ∧ cfg.slack_warning then
          [SendAttempt.slack (_format_alert_message report.warning "WARNING")]
        else [] := by
  cases hsw : cfg.send_warnings <;> cases hslw : cfg.slack_warning <;>
    simp [send_alerts, hc, hw, hsw, hslw]

/-- C5 amended witness: with the slack warning gate set and
send_warnings on, a one-warning report is dispatched exactly as one
slack attempt. -/
theorem warnings_dispatch_only_slack_witness :
    send_alerts
      { smtp_enabled := true, slack_enabled := true, webhook_enabled := true
        email_critical := false, email_recipients := ["ops"]
        slack_critical := false, slack_warning := true, webhook_critical := false
        send_warnings := true, email_warning := true, webhook_warning := true }
      (mkHealthReport "T" [⟨"pod_pending", "warning", "ns/p", "m", "T"⟩])
    = if (true : Bool) = true ∧ (true : Bool) = true then
        [SendAttempt.slack (_format_alert_message
          ((mkHealthReport "T" [⟨"pod_pending", "warning", "ns/p", "m", "T"⟩]).warning)
          "WARNING")]
      else [] :=
  warnings_dispatch_only_slack _ _ (by decide) (by decide)


/-- C8: the alert message renders exactly the first min(n, 10) issues,
in input order, and appends the overflow line with count n − 10 exactly
when n > 10. -/
theorem format_alert_truncation (issues : List Issue) (severity : String) :
    (alertEntries issues).length = min issues.length 10
  ∧ alertEntries issues = (issues.take 10).map renderIssueEntry
  ∧ (issues.length > 10 →
      alertTrailer issues = "... and " ++ toString (issues.length - 10) ++ " more issues\n")
  ∧ (issues.length ≤ 10 → alertTrailer issues = "")
  ∧ _format_alert_message issues severity
      = alertHeader issues severity ++ String.join (alertEntries issues)
        ++ alertTrailer issues := by
  refine ⟨?_, rfl, ?_, ?_, rfl⟩
  · simp [alertEntries, Nat.min_comm]
  · intro h
    simp [alertTrailer, h]
  · intro h
    simp [alertTrailer]
    omega

/-- C8 witness: 15 issues of one severity yield exactly 10 rendered
entries and the overflow line for the 5 others. -/
theorem format_alert_truncation_witness :
    (alertEntries (List.replicate 15
        ({ type := "pod_failed", severity := "critical", resource := "ns/p"
           message := "m", timestamp := "T" } : Issue))).length = 10
  ∧ alertTrailer (List.replicate 15
        ({ type := "pod_failed", severity := "critical", resource := "ns/p"
           message := "m", timestamp := "T" } : Issue))
      = "... and 5 more issues\n" := by
  have h := format_alert_truncation (List.replicate 15
    ({ type := "pod_failed", severity := "critical", resource := "ns/p"
       message := "m", timestamp := "T" } : Issue)) "CRITICAL"
  refine ⟨by rw [h.1]; decide, by rw [h.2.2.1 (by decide)]; decide⟩

/-- The int() fallback on a nonempty all-digit string succeeds with the
decimal value of the digits. -/
theorem parseIntChars_digits (cs : List Char) (h1 : cs ≠ [])
    (h2 : cs.all Char.isDigit) : parseIntChars cs = some ((digitsToNat cs : Int)) := by
  match cs with
  | [] => exact absurd rfl h1
  | c :: rest =>
    have hc : c.isDigit = true := by
      have := h2
      simp [List.all_cons] at this
      exact this.1
    have hcm : c ≠ '-' := by
      intro he
      rw [he] at hc
      exact absurd hc (by decide)
    have hcp : c ≠ '+' := by
      intro he
      rw [he] at hc
      exact absurd hc (by decide)
    simp only [parseIntChars]
    rw [if_neg hcm, if_neg hcp, if_pos h2]

/-- The memory suffix dispatch falls through to int() whenever the last
character is not the letter i. -/
theorem parseMemRev_fallback (c : Char) (hc : c ≠ 'i') (cs : List Char) :
    parseMemRev (c :: cs) = parseIntChars (c :: cs).reverse := by
  unfold parseMemRev
  split
  · rename_i heq; exact absurd (by injection heq) hc
  · rename_i heq; exact absurd (by injection heq) hc
  · rename_i heq; exact absurd (by injection heq) hc
  · rename_i heq; exact absurd (by injection heq) hc
  · rfl

/-- C9: parse_memory normalizes binary suffixes: a parsed numeric value
with suffix Ki, Mi, Gi, Ti is multiplied by the matching power of 1024
and truncated; the empty string yields 0; an all-digit string is read
as a raw decimal byte count; and 1Gi and 1024Mi both normalize to
1073741824 bytes. -/
theorem parse_memory_normalization :
    (∀ (pfx : String) (q : ℚ), parseFloatChars pfx.data = some q →
        _parse_memory (pfx ++ "Ki") = some (ratTruncToInt (q * 1024))
      ∧ _parse_memory (pfx ++ "Mi") = some (ratTruncToInt (q * 1024 ^ 2))
      ∧ _parse_memory (pfx ++ "Gi") = some (ratTruncToInt (q * 1024 ^ 3))
      ∧ _parse_memory (pfx ++ "Ti") = some (ratTruncToInt (q * 1024 ^ 4)))
  ∧ _parse_memory "" = some 0
  ∧ (∀ s : String, s.data ≠ [] → s.data.all Char.isDigit →
      _parse_memory s = some ((digitsToNat s.data : Int)))
  ∧ _parse_memory "1Gi" = some 1073741824
  ∧ _parse_memory "1024Mi" = some 1073741824 := by
  have hsuffix : ∀ (pfx : String) (q : ℚ), parseFloatChars pfx.data = some q →
      _parse_memory (pfx ++ "Ki") = some (ratTruncToInt (q * 1024))
    ∧ _parse_memory (pfx ++ "Mi") = some (ratTruncToInt (q * 1024 ^ 2))
    ∧ _parse_memory (pfx ++ "Gi") = some (ratTruncToInt (q * 1024 ^ 3))
    ∧ _parse_memory (pfx ++ "Ti") = some (ratTruncToInt (q * 1024 ^ 4)) := by
    intro pfx q hq
    refine ⟨?_, ?_, ?_, ?_⟩ <;>
      simp [_parse_memory, parseMemChars, String.data_append, parseMemRev, hq]
  refine ⟨hsuffix, by decide, ?_, ?_, ?_⟩
  · intro s h1 h2
    have hne : s.data.reverse ≠ [] := by simpa using h1
    obtain ⟨c, cs', hrev⟩ := List.exists_cons_of_ne_nil hne
    have hcmem : c ∈ s.data := by
      have : c ∈ s.data.reverse := by rw [hrev]; exact List.mem_cons_self c cs'
      simpa using this
    have hcdig : c.isDigit = true := by
      have := List.all_eq_true.mp h2
      simpa using this c hcmem
    have hci : c ≠ 'i' := by
      intro he
      rw [he] at hcdig
      exact absurd hcdig (by decide)
    have : _parse_memory s = parseIntChars s.data := by
      simp only [_parse_memory, parseMemChars, if_neg h1, hrev, parseMemRev_fallback c hci]
      rw [show (c :: cs').reverse = s.data.reverse.reverse from by rw [hrev]]
      rw [List.reverse_reverse]
    rw [this]
    exact parseIntChars_digits s.data h1 h2
  · have h := (hsuffix "1" 1 (by decide)).2.2.1
    rw [show ("1" ++ "Gi" : String) = "1Gi" from rfl] at h
    rw [h]
    rw [show ((1 : ℚ) * 1024 ^ 3) = ((1073741824 : ℚ)) from by norm_num]
    decide
  · have h := (hsuffix "1024" 1024 (by decide)).2.1
    rw [show ("1024" ++ "Mi" : String) = "1024Mi" from rfl] at h
    rw [h]
    rw [show ((1024 : ℚ) * 1024 ^ 2) = ((1073741824 : ℚ)) from by norm_num]
    decide

/-- C9 witness: the suffix clause applied at the concrete numeric value
2, giving 2Ki as 2048 bytes. -/
theorem parse_memory_normalization_witness :
    _parse_memory ("2" ++ "Ki") = some (ratTruncToInt (2 * 1024)) :=
  ((parse_memory_normalization.1 "2" 2 (by decide)).1)

/-- C3 counterexample: the source hardcodes the 90 and 95 percent
thresholds, ignoring any configured values, so the claimed behaviour
fails for a ThresholdConfig with quota_warning_pct 50: a 60 percent
usage produces no issue where the claim demands a warning. -/
theorem quota_band_config_ignored :
    ¬ specQuotaBandProperty ⟨90, 5, 300, 50, 95⟩ "ns" "q" "T" "requests.cpu" "10" "6"
        10 6 := by
  intro hcl
  have hvals : quotaResourceValues "requests.cpu" "10" "6" = some (10, 6) := by decide
  obtain ⟨i, hi, _⟩ := (hcl hvals).2.2.1 (by norm_num) (by norm_num) (by norm_num)
  have hzero : quotaResourceIssues "ns" "q" "T" "requests.cpu" "10" "6" = some [] := by
    simp only [quotaResourceIssues, hvals, Option.bind_eq_bind, Option.some_bind]
    norm_num [quotaBandIssues, usagePercent]
  rw [hzero] at hi
  simp at hi

/-- C3 amended: with the thresholds fixed at 90 (warning) and 95
(critical) as hardcoded in the source — regardless of ThresholdConfig —
the quota bands behave as claimed: a zero hard limit yields 0 percent
and no issue; above 95 percent exactly one critical issue and no
warning; above 90 and at most 95, exactly one warning; otherwise no
issue. -/
theorem quota_band_thresholds (ns qname ts resource hl us : String) (h u : ℚ)
    (hp : quotaResourceValues resource hl us = some (h, u)) :
    (h = 0 → quotaResourceIssues ns qname ts resource hl us = some [])
  ∧ (0 < h → 95 < u / h * 100 →
      quotaResourceIssues ns qname ts resource hl us
        = some [{ type := "resource_quota_high"
                  severity := "critical"
                  resource := ns ++ "/" ++ qname ++ "/" ++ resource
                  message := "Resource quota " ++ resource ++ " is used ("
                    ++ us ++ "/" ++ hl ++ ")"
                  timestamp := ts }])
  ∧ (0 < h → 90 < u / h * 100 → u / h * 100 ≤ 95 →
      quotaResourceIssues ns qname ts resource hl us
        = some [{ type := "resource_quota_high"
                  severity := "warning"
                  resource := ns ++ "/" ++ qname ++ "/" ++ resource
                  message := "Resource quota " ++ resource ++ " is used ("
                    ++ us ++ "/" ++ hl ++ ")"
                  timestamp := ts }])
  ∧ (0 < h → u / h * 100 ≤ 90 →
      quotaResourceIssues ns qname ts resource hl us = some []) := by
  have hq : quotaResourceIssues ns qname ts resource hl us
      = some (quotaBandIssues ns qname resource us hl ts h u) := by
    simp only [quotaResourceIssues, hp, Option.bind_eq_bind, Option.some_bind]
    rfl
  refine ⟨?_, ?_, ?_, ?_⟩
  · intro h0
    rw [hq]
    norm_num [quotaBandIssues, usagePercent, h0]
  · intro hpos hcrit
    have hup : usagePercent h u = u / h * 100 := by simp [usagePercent, hpos]
    rw [hq]
    simp only [quotaBandIssues, hup]
    rw [if_pos (by linarith), if_pos hcrit]
  · intro hpos hw hc
    have hup : usagePercent h u = u / h * 100 := by simp [usagePercent, hpos]
    rw [hq]
    simp only [quotaBandIssues, hup]
    rw [if_pos hw, if_neg (by linarith)]
  · intro hpos hle
    have hup : usagePercent h u = u / h * 100 := by simp [usagePercent, hpos]
    rw [hq]
    simp only [quotaBandIssues, hup]
    rw [if_neg (by linarith)]

/-- C3 amended witness: a 96 percent CPU quota yields exactly one
critical issue. -/
theorem quota_band_thresholds_witness :
    quotaResourceIssues "ns" "q" "T" "requests.cpu" "100" "96"
      = some [{ type := "resource_quota_high"
                severity := "critical"
                resource := "ns" ++ "/" ++ "q" ++ "/" ++ "requests.cpu"
                message := "Resource quota " ++ "requests.cpu" ++ " is used ("
                  ++ "96" ++ "/" ++ "100" ++ ")"
                timestamp := "T" }] :=
  (quota_band_thresholds "ns" "q" "T" "requests.cpu" "100" "96" 100 96 (by decide)).2.1
    (by norm_num) (by norm_num)

/-- C1: whatever each cycle body does — complete or raise — the loop
invokes every cycle, sleeps the full interval exactly once after each,
never terminates on a failure (cycles after a failing one are still
invoked), and its only exit is the final interrupt. -/
theorem continuous_loop_resilient (interval : Nat)
    (outcomes : List (Except String HealthReport)) :
    ((mainLoop interval outcomes).countP isCycleStart = outcomes.length)
  ∧ ((mainLoop interval outcomes).countP isSleepEvent = outcomes.length)
  ∧ (∀ n : Nat, LoopEvent.sleep n ∈ mainLoop interval outcomes → n = interval)
  ∧ (∃ pre : List LoopEvent,
      mainLoop interval outcomes = pre ++ [LoopEvent.interrupted]
        ∧ pre.countP isInterruptedEvent = 0)
  ∧ (∀ (pre post : List (Except String HealthReport)) (e : String),
      outcomes = pre ++ Except.error e :: post →
      (mainLoop interval outcomes).countP isCycleStart = pre.length + 1 + post.length) := by
  have hstart : ∀ l : List (Except String HealthReport),
      (mainLoop interval l).countP isCycleStart = l.length := by
    intro l
    induction l with
    | nil => simp [mainLoop, isCycleStart]
    | cons o rest ih =>
      cases o <;> simp [mainLoop, List.countP_cons, isCycleStart, ih]
  have hsleep : ∀ l : List (Except String HealthReport),
      (mainLoop interval l).countP isSleepEvent = l.length := by
    intro l
    induction l with
    | nil => simp [mainLoop, isSleepEvent]
    | cons o rest ih =>
      cases o <;> simp [mainLoop, List.countP_cons, isSleepEvent, ih]
  have hfull : ∀ (l : List (Except String HealthReport)) (n : Nat),
      LoopEvent.sleep n ∈ mainLoop interval l → n = interval := by
    intro l
    induction l with
    | nil =>
      intro n hn
      simp [mainLoop] at hn
    | cons o rest ih =>
      intro n hn
      cases o <;> simp [mainLoop] at hn <;> rcases hn with h | h
      · exact h
      · exact ih n h
      · exact h
      · exact ih n h
  have hexit : ∀ l : List (Except String HealthReport),
      ∃ pre : List LoopEvent,
        mainLoop interval l = pre ++ [LoopEvent.interrupted]
          ∧ pre.countP isInterruptedEvent = 0 := by
    intro l
    induction l with
    | nil => exact ⟨[], rfl, rfl⟩
    | cons o rest ih =>
      obtain ⟨pre, hpre, hcount⟩ := ih
      cases o with
      | ok r =>
        refine ⟨LoopEvent.cycleStart :: LoopEvent.cycleCompleted r.total_issues
          :: LoopEvent.sleep interval :: pre, ?_, ?_⟩
        · simp [mainLoop, hpre]
        · simp [List.countP_cons, isInterruptedEvent, hcount]
      | error e =>
        refine ⟨LoopEvent.cycleStart :: LoopEvent.exceptionLogged e
          :: LoopEvent.sleep interval :: pre, ?_, ?_⟩
        · simp [mainLoop, hpre]
        · simp [List.countP_cons, isInterruptedEvent, hcount]
  refine ⟨hstart outcomes, hsleep outcomes, hfull outcomes, hexit outcomes, ?_⟩
  intro pre post e heq
  rw [hstart outcomes, heq]
  simp
  omega

/-- C1 witness: with a failing first cycle and a succeeding second one,
both cycles are invoked, and a sleep of the configured interval occurs
in the trace only with the full interval. -/
theorem continuous_loop_resilient_witness :
    ((mainLoop 7 [Except.error "boom", Except.ok (mkHealthReport "T" [])]).countP
        isCycleStart = 0 + 1 + 1)
  ∧ (7 : Nat) = 7 :=
  ⟨(continuous_loop_resilient 7 [Except.error "boom",
      Except.ok (mkHealthReport "T" [])]).2.2.2.2 [] [Except.ok (mkHealthReport "T" [])]
      "boom" rfl,
   (continuous_loop_resilient 7 [Except.error "boom",
      Except.ok (mkHealthReport "T" [])]).2.2.1 7 (by decide)⟩

end CICDMonitor
